import Mathlib

/-!
Verification of the TLS 1.2 handshake state-machine model in `src/tls12.rs`.

The Rust module defines a set of boolean protocol options, an enumeration of
handshake states, a classification `State::sends` giving the (peer, message
type) each non-terminal state emits, and a pure transition function `step`.
All of these are embedded below as executable Lean definitions, translated
clause by clause from the source.  The Rust `sends` function aborts at run
time on the terminal state; that fallible case is embedded as an `Option`
result, with `none` standing for the abort.
-/

namespace Tls12

/-- The struct `ProtocolOptions` from `src/tls12.rs`: six independent boolean
flags selecting the handshake variant. -/
structure ProtocolOptions where
  resuming : Bool
  request_client_auth : Bool
  perform_client_auth : Bool
  dh_anon : Bool
  rsa_kem : Bool
  server_issues_ticket : Bool
  deriving DecidableEq

/-- The enum `MessageType` from `src/tls12.rs`: the eleven handshake message
kinds. -/
inductive MessageType where
  | ClientHello
  | ServerHello
  | Certificate
  | ServerKeyExchange
  | CertificateRequest
  | ServerHelloDone
  | ClientKeyExchange
  | CertificateVerify
  | NewSessionTicket
  | ChangeCipherSpec
  | Finished
  deriving DecidableEq

/-- The enum `Peer` from `src/tls12.rs`. -/
inductive Peer where
  | Server
  | Client
  deriving DecidableEq

/-- The enum `State` from `src/tls12.rs`: fourteen send states plus the
terminal state `Term`. -/
inductive State where
  | ClientSendsClientHello
  | ServerSendsServerHello
  | ServerSendsCertificate
  | ServerSendsServerKeyExchange
  | ServerSendsCertificateRequest
  | ServerSendsServerHelloDone
  | ClientSendsCertificate
  | ClientSendsClientKeyExchange
  | ClientSendsCertificateVerify
  | ClientSendsChangeCipherSpec
  | ClientSendsFinished
  | ServerSendsNewSessionTicket
  | ServerSendsChangeCipherSpec
  | ServerSendsFinished
  | Term
  deriving DecidableEq

/-- The method `State::sends` from `src/tls12.rs`: the (Peer, MessageType)
pair a state emits.  The Rust code aborts at run time in the `Term` arm; the
abort is embedded as `none`. -/
def State.sends : State → Option (Peer × MessageType)
  | .ClientSendsClientHello => some (.Client, .ClientHello)
  | .ServerSendsServerHello => some (.Server, .ServerHello)
  | .ServerSendsCertificate => some (.Server, .Certificate)
  | .ServerSendsServerKeyExchange => some (.Server, .ServerKeyExchange)
  | .ServerSendsCertificateRequest => some (.Server, .CertificateRequest)
  | .ServerSendsServerHelloDone => some (.Server, .ServerHelloDone)
  | .ClientSendsCertificate => some (.Client, .Certificate)
  | .ClientSendsClientKeyExchange => some (.Client, .ClientKeyExchange)
  | .ClientSendsCertificateVerify => some (.Client, .CertificateVerify)
  | .ClientSendsChangeCipherSpec => some (.Client, .ChangeCipherSpec)
  | .ClientSendsFinished => some (.Client, .Finished)
  | .ServerSendsNewSessionTicket => some (.Server, .NewSessionTicket)
  | .ServerSendsChangeCipherSpec => some (.Server, .ChangeCipherSpec)
  | .ServerSendsFinished => some (.Server, .Finished)
  | .Term => none

/-- The function `step` from `src/tls12.rs`: the transition function of the
handshake state machine, translated branch for branch. -/
def step (st : State) (opts : ProtocolOptions) : State :=
  match st with
  | .ClientSendsClientHello => .ServerSendsServerHello
  | .ServerSendsServerHello =>
      if opts.resuming then
        if opts.server_issues_ticket then .ServerSendsNewSessionTicket
        else .ServerSendsFinished
      else
        if opts.dh_anon then .ServerSendsServerKeyExchange
        else .ServerSendsCertificate
  | .ServerSendsCertificate =>
      if opts.rsa_kem then
        if opts.request_client_auth then .ServerSendsCertificateRequest
        else .ServerSendsServerHelloDone
      else .ServerSendsServerKeyExchange
  | .ServerSendsServerKeyExchange =>
      if opts.request_client_auth then .ServerSendsCertificateRequest
      else .ServerSendsServerHelloDone
  | .ServerSendsCertificateRequest => .ServerSendsServerHelloDone
  | .ServerSendsServerHelloDone =>
      if opts.request_client_auth then .ClientSendsCertificate
      else .ClientSendsClientKeyExchange
  | .ClientSendsCertificate => .ClientSendsClientKeyExchange
  | .ClientSendsClientKeyExchange =>
      if opts.perform_client_auth then .ClientSendsCertificateVerify
      else .ClientSendsChangeCipherSpec
  | .ClientSendsCertificateVerify => .ClientSendsChangeCipherSpec
  | .ClientSendsChangeCipherSpec => .ClientSendsFinished
  | .ClientSendsFinished =>
      if opts.resuming then .Term
      else
        if opts.server_issues_ticket then .ServerSendsNewSessionTicket
        else .ServerSendsChangeCipherSpec
  | .ServerSendsNewSessionTicket => .ServerSendsChangeCipherSpec
  | .ServerSendsChangeCipherSpec => .ServerSendsFinished
  | .ServerSendsFinished =>
      if opts.resuming then .ClientSendsChangeCipherSpec
      else .Term
  | .Term => .Term

/-- Iterated transition: the state after `n` applications of `step` under a
fixed options value, starting from `st`.  This is the loop of the test
drivers in `src/tls12.rs`, made explicit. -/
def stepN (st : State) (opts : ProtocolOptions) : Nat → State
  | 0 => st
  | n + 1 => step (stepN st opts n) opts

/-- The sequence of states visited in the first `n` transitions:
`[st, step st, stepN st 2, ...]`, a list of `n + 1` states. -/
def trace (st : State) (opts : ProtocolOptions) (n : Nat) : List State :=
  (List.range (n + 1)).map (stepN st opts)

/-- The run of the machine from the initial state under `opts`: the prefix of
the visited states before the terminal state is first reached.  Fourteen
transitions always suffice to reach `Term` (proved below), so the 15-state
trace is cut at the first `Term`. -/
def runStates (opts : ProtocolOptions) : List State :=
  (trace State.ClientSendsClientHello opts 14).takeWhile (fun s => !(s == State.Term))

/-- The fourteen non-terminal states, in declaration order. -/
def nonTerminalStates : List State :=
  [.ClientSendsClientHello, .ServerSendsServerHello, .ServerSendsCertificate,
   .ServerSendsServerKeyExchange, .ServerSendsCertificateRequest,
   .ServerSendsServerHelloDone, .ClientSendsCertificate,
   .ClientSendsClientKeyExchange, .ClientSendsCertificateVerify,
   .ClientSendsChangeCipherSpec, .ClientSendsFinished,
   .ServerSendsNewSessionTicket, .ServerSendsChangeCipherSpec,
   .ServerSendsFinished]

/-- Options with only `resuming` set (the `resume` test in `src/tls12.rs`). -/
def resumeOnly : ProtocolOptions := ⟨true, false, false, false, false, false⟩

/-- Options with `request_client_auth` and `perform_client_auth` set (the
`perform_client_auth` test in `src/tls12.rs`). -/
def clientAuthOpts : ProtocolOptions := ⟨false, true, true, false, false, false⟩

/-- The options enumerated by the `rustls_subset` test in `src/tls12.rs`:
`dh_anon` and `rsa_kem` stay false, the four remaining flags vary. -/
def rustlsOpts (resume ticket req perf : Bool) : ProtocolOptions :=
  ⟨resume, req, perf, false, false, ticket⟩

/-- Claim C1: for every `ProtocolOptions` value, the transition function maps
the terminal state `Term` to `Term` itself; `Term` is absorbing and stepping
from it is not an error. -/
theorem term_absorbs (opts : ProtocolOptions) : step State.Term opts = State.Term := rfl

/-- Claim C2: for every `ProtocolOptions` value, iterating `step` from the
initial state `ClientSendsClientHello` reaches `Term` within at most 14
applications; since `Term` is absorbing, no run from the initial state takes
longer. -/
theorem reaches_term_within_14 (opts : ProtocolOptions) :
    stepN State.ClientSendsClientHello opts 14 = State.Term := by
  rcases opts with ⟨r, rq, p, d, k, t⟩
  revert r rq p d k t
  decide

/-- Claim C3: `State.sends` is defined (returns `some`) on each of the 14
non-terminal states, returns exactly the (Peer, MessageType) table of the
spec, the 14 pairs are pairwise distinct, and the 14 listed states together
with `Term` exhaust `State`. -/
theorem sends_injective_classification :
    nonTerminalStates.map State.sends =
      [some (Peer.Client, MessageType.ClientHello),
       some (Peer.Server, MessageType.ServerHello),
       some (Peer.Server, MessageType.Certificate),
       some (Peer.Server, MessageType.ServerKeyExchange),
       some (Peer.Server, MessageType.CertificateRequest),
       some (Peer.Server, MessageType.ServerHelloDone),
       some (Peer.Client, MessageType.Certificate),
       some (Peer.Client, MessageType.ClientKeyExchange),
       some (Peer.Client, MessageType.CertificateVerify),
       some (Peer.Client, MessageType.ChangeCipherSpec),
       some (Peer.Client, MessageType.Finished),
       some (Peer.Server, MessageType.NewSessionTicket),
       some (Peer.Server, MessageType.ChangeCipherSpec),
       some (Peer.Server, MessageType.Finished)] ∧
    (nonTerminalStates.map State.sends).Nodup ∧
    (∀ s : State, s = State.Term ∨ s ∈ nonTerminalStates) := by
  refine ⟨rfl, by decide, ?_⟩
  intro s
  cases s <;> decide

/-- Claim C4: `State.sends` fails (the embedded image of the Rust abort,
`none`) exactly on the terminal state `Term`, and on no other state. -/
theorem sends_term_invalid (s : State) : State.sends s = none ↔ s = State.Term := by
  cases s <;> decide

/-- Claim C5: with only `resuming` set, the run visits exactly the states
ClientSendsClientHello, ServerSendsServerHello, ServerSendsFinished,
ClientSendsChangeCipherSpec, ClientSendsFinished, Term, in that order: five
send states, no certificate, key-exchange or ticket state among them. -/
theorem resumption_short_circuit :
    runStates resumeOnly =
      [State.ClientSendsClientHello, State.ServerSendsServerHello,
       State.ServerSendsFinished, State.ClientSendsChangeCipherSpec,
       State.ClientSendsFinished] ∧
    trace State.ClientSendsClientHello resumeOnly 5 =
      [State.ClientSendsClientHello, State.ServerSendsServerHello,
       State.ServerSendsFinished, State.ClientSendsChangeCipherSpec,
       State.ClientSendsFinished, State.Term] := by
  decide

/-- Claim C6: with `request_client_auth` and `perform_client_auth` set and
all other flags false, the run emits exactly the thirteen (Peer, MessageType)
pairs of the full client-authenticated handshake, in order, and the
fourteenth step reaches `Term`. -/
theorem full_handshake_client_auth_sequence :
    (trace State.ClientSendsClientHello clientAuthOpts 12).map State.sends =
      [some (Peer.Client, MessageType.ClientHello),
       some (Peer.Server, MessageType.ServerHello),
       some (Peer.Server, MessageType.Certificate),
       some (Peer.Server, MessageType.ServerKeyExchange),
       some (Peer.Server, MessageType.CertificateRequest),
       some (Peer.Server, MessageType.ServerHelloDone),
       some (Peer.Client, MessageType.Certificate),
       some (Peer.Client, MessageType.ClientKeyExchange),
       some (Peer.Client, MessageType.CertificateVerify),
       some (Peer.Client, MessageType.ChangeCipherSpec),
       some (Peer.Client, MessageType.Finished),
       some (Peer.Server, MessageType.ChangeCipherSpec),
       some (Peer.Server, MessageType.Finished)] ∧
    stepN State.ClientSendsClientHello clientAuthOpts 13 = State.Term := by
  decide

/-- Claim C7: whenever `resuming` is set, whatever the other flags (in
particular `server_issues_ticket`), the transition from `ClientSendsFinished`
is directly to `Term`: resumption takes priority over ticket issuance. -/
theorem resuming_finished_to_term (opts : ProtocolOptions)
    (h : opts.resuming = true) :
    step State.ClientSendsFinished opts = State.Term := by
  rcases opts with ⟨r, rq, p, d, k, t⟩
  replace h : r = true := h
  subst h
  rfl

/-- Witness for claim C7 at the options with `resuming` and
`server_issues_ticket` both set. -/
theorem resuming_finished_to_term_witness :
    (⟨true, false, false, false, false, true⟩ : ProtocolOptions).resuming = true ∧
    step State.ClientSendsFinished ⟨true, false, false, false, false, true⟩ = State.Term :=
  ⟨rfl, resuming_finished_to_term ⟨true, false, false, false, false, true⟩ rfl⟩

/-- Claim C8: for every `ProtocolOptions` value, the successor of
`ServerSendsCertificate` is `ServerSendsCertificateRequest` or
`ServerSendsServerHelloDone` (by `request_client_auth`) when `rsa_kem` holds,
and `ServerSendsServerKeyExchange` otherwise. -/
theorem certificate_branch (opts : ProtocolOptions) :
    step State.ServerSendsCertificate opts =
      if opts.rsa_kem then
        if opts.request_client_auth then State.ServerSendsCertificateRequest
        else State.ServerSendsServerHelloDone
      else State.ServerSendsServerKeyExchange := rfl

/-- Claim C9: for every combination in {resuming, ticket} × {(req, perf) in
{(F,F), (T,F), (T,T)}} with `dh_anon` and `rsa_kem` false, the run from the
initial state is non-empty, reaches `Term` within 14 steps, and visits no
non-terminal state twice. -/
theorem rustls_subset_runs (resume ticket req perf : Bool)
    (h : (req, perf) ∈ [(false, false), (true, false), (true, true)]) :
    runStates (rustlsOpts resume ticket req perf) ≠ [] ∧
    (runStates (rustlsOpts resume ticket req perf)).Nodup ∧
    stepN State.ClientSendsClientHello (rustlsOpts resume ticket req perf) 14 =
      State.Term := by
  revert resume ticket req perf h
  decide

/-- Witness for claim C9 at the full handshake with requested and performed
client authentication. -/
theorem rustls_subset_runs_witness :
    ((true, true) ∈ [(false, false), (true, false), (true, true)] ∧
     runStates (rustlsOpts false false true true) ≠ [] ∧
     (runStates (rustlsOpts false false true true)).Nodup ∧
     stepN State.ClientSendsClientHello (rustlsOpts false false true true) 14 =
       State.Term) :=
  ⟨by decide, rustls_subset_runs false false true true (by decide)⟩

/-- Helper: `step` reads `rsa_kem` only in the `ServerSendsCertificate` arm,
so on any other state two options values differing only in `rsa_kem` agree. -/
lemma step_rsa_kem_agree (s : State) (r rq p d k1 k2 t : Bool)
    (h : s ≠ State.ServerSendsCertificate) :
    step s ⟨r, rq, p, d, k1, t⟩ = step s ⟨r, rq, p, d, k2, t⟩ := by
  cases s <;> (revert r rq p d k1 k2 t h; decide)

/-- Helper: when `dh_anon` is set, no state steps to `ServerSendsCertificate`
(the only edge into it, from `ServerSendsServerHello`, requires `dh_anon` to
be false). -/
lemma step_dh_anon_ne_cert (s : State) (r rq p k t : Bool) :
    step s ⟨r, rq, p, true, k, t⟩ ≠ State.ServerSendsCertificate := by
  cases s <;> (revert r rq p k t; decide)

/-- Helper: when `dh_anon` is set, the run from the initial state never
visits `ServerSendsCertificate`. -/
lemma stepN_dh_anon_ne_cert (r rq p k t : Bool) (n : Nat) :
    stepN State.ClientSendsClientHello ⟨r, rq, p, true, k, t⟩ n ≠
      State.ServerSendsCertificate := by
  cases n with
  | zero =>
      exact (by decide : State.ClientSendsClientHello ≠ State.ServerSendsCertificate)
  | succ m =>
      exact step_dh_anon_ne_cert
        (stepN State.ClientSendsClientHello ⟨r, rq, p, true, k, t⟩ m) r rq p k t

/-- Claim C10: when `dh_anon` is set, `rsa_kem` has no effect on the run: two
options values agreeing on all flags except `rsa_kem`, both with `dh_anon`
set, produce identical state sequences from the initial state (pointwise for
every step count). -/
theorem dh_anon_rsa_kem_irrelevant (r rq p t k1 k2 : Bool) (n : Nat) :
    stepN State.ClientSendsClientHello ⟨r, rq, p, true, k1, t⟩ n =
      stepN State.ClientSendsClientHello ⟨r, rq, p, true, k2, t⟩ n := by
  induction n with
  | zero => rfl
  | succ m ih =>
      have hne := stepN_dh_anon_ne_cert r rq p k1 t m
      calc stepN State.ClientSendsClientHello ⟨r, rq, p, true, k1, t⟩ (m + 1)
          = step (stepN State.ClientSendsClientHello ⟨r, rq, p, true, k1, t⟩ m)
              ⟨r, rq, p, true, k1, t⟩ := rfl
        _ = step (stepN State.ClientSendsClientHello ⟨r, rq, p, true, k1, t⟩ m)
              ⟨r, rq, p, true, k2, t⟩ :=
            step_rsa_kem_agree _ r rq p true k1 k2 t hne
        _ = step (stepN State.ClientSendsClientHello ⟨r, rq, p, true, k2, t⟩ m)
              ⟨r, rq, p, true, k2, t⟩ := by rw [ih]
        _ = stepN State.ClientSendsClientHello ⟨r, rq, p, true, k2, t⟩ (m + 1) := rfl

end Tls12
